import Mathlib

/-!
Verification of the core logic of the Trackmania Exchange Browser
(src/exchangeBrowser.py): the JSON data model, the result-record mapping
(MapInfo), the search query builder (search_browse + SearchWorker), and the
favorites store (Config.load_favorites / Config.save_favorites and the
add/remove/render operations of TrackmaniaExchangeBrowser).

JSON values are modelled by the inductive type JVal; Python dictionaries
decoded from JSON are association lists with string keys (json.load produces
insertion-ordered dicts with unique string keys).  Python operations that can
raise are modelled in the Except String monad; operations that cannot raise
are plain functions.
-/

set_option maxRecDepth 4000

/-- A JSON value as produced by Python's json.load: null, booleans, integers
(the repository's data uses no fractional numbers), strings, arrays, and
objects (insertion-ordered string-keyed dictionaries). -/
inductive JVal where
  | null : JVal
  | bool (b : Bool) : JVal
  | int (n : Int) : JVal
  | str (s : String) : JVal
  | arr (xs : List JVal) : JVal
  | obj (kvs : List (String × JVal)) : JVal

mutual

/-- Decidable structural equality for JSON values (written by hand because
automatic deriving does not handle this nested inductive). -/
def jvalDecEq : (a b : JVal) → Decidable (a = b)
  | .null, .null => isTrue rfl
  | .null, .bool _ => isFalse (fun h => JVal.noConfusion h)
  | .null, .int _ => isFalse (fun h => JVal.noConfusion h)
  | .null, .str _ => isFalse (fun h => JVal.noConfusion h)
  | .null, .arr _ => isFalse (fun h => JVal.noConfusion h)
  | .null, .obj _ => isFalse (fun h => JVal.noConfusion h)
  | .bool _, .null => isFalse (fun h => JVal.noConfusion h)
  | .bool x, .bool y =>
    match decEq x y with
    | isTrue h => isTrue (by rw [h])
    | isFalse h => isFalse (fun hh => by injection hh with h2; exact h h2)
  | .bool _, .int _ => isFalse (fun h => JVal.noConfusion h)
  | .bool _, .str _ => isFalse (fun h => JVal.noConfusion h)
  | .bool _, .arr _ => isFalse (fun h => JVal.noConfusion h)
  | .bool _, .obj _ => isFalse (fun h => JVal.noConfusion h)
  | .int _, .null => isFalse (fun h => JVal.noConfusion h)
  | .int _, .bool _ => isFalse (fun h => JVal.noConfusion h)
  | .int x, .int y =>
    match decEq x y with
    | isTrue h => isTrue (by rw [h])
    | isFalse h => isFalse (fun hh => by injection hh with h2; exact h h2)
  | .int _, .str _ => isFalse (fun h => JVal.noConfusion h)
  | .int _, .arr _ => isFalse (fun h => JVal.noConfusion h)
  | .int _, .obj _ => isFalse (fun h => JVal.noConfusion h)
  | .str _, .null => isFalse (fun h => JVal.noConfusion h)
  | .str _, .bool _ => isFalse (fun h => JVal.noConfusion h)
  | .str _, .int _ => isFalse (fun h => JVal.noConfusion h)
  | .str x, .str y =>
    match decEq x y with
    | isTrue h => isTrue (by rw [h])
    | isFalse h => isFalse (fun hh => by injection hh with h2; exact h h2)
  | .str _, .arr _ => isFalse (fun h => JVal.noConfusion h)
  | .str _, .obj _ => isFalse (fun h => JVal.noConfusion h)
  | .arr _, .null => isFalse (fun h => JVal.noConfusion h)
  | .arr _, .bool _ => isFalse (fun h => JVal.noConfusion h)
  | .arr _, .int _ => isFalse (fun h => JVal.noConfusion h)
  | .arr _, .str _ => isFalse (fun h => JVal.noConfusion h)
  | .arr xs, .arr ys =>
    match jvalListDecEq xs ys with
    | isTrue h => isTrue (by rw [h])
    | isFalse h => isFalse (fun hh => by injection hh with h2; exact h h2)
  | .arr _, .obj _ => isFalse (fun h => JVal.noConfusion h)
  | .obj _, .null => isFalse (fun h => JVal.noConfusion h)
  | .obj _, .bool _ => isFalse (fun h => JVal.noConfusion h)
  | .obj _, .int _ => isFalse (fun h => JVal.noConfusion h)
  | .obj _, .str _ => isFalse (fun h => JVal.noConfusion h)
  | .obj _, .arr _ => isFalse (fun h => JVal.noConfusion h)
  | .obj xs, .obj ys =>
    match jvalObjDecEq xs ys with
    | isTrue h => isTrue (by rw [h])
    | isFalse h => isFalse (fun hh => by injection hh with h2; exact h h2)

/-- Decidable equality for lists of JSON values. -/
def jvalListDecEq : (xs ys : List JVal) → Decidable (xs = ys)
  | [], [] => isTrue rfl
  | [], _ :: _ => isFalse (fun h => List.noConfusion h)
  | _ :: _, [] => isFalse (fun h => List.noConfusion h)
  | x :: xs, y :: ys =>
    match jvalDecEq x y with
    | isFalse h => isFalse (fun hh => by injection hh with h1 _; exact h h1)
    | isTrue h1 =>
      match jvalListDecEq xs ys with
      | isTrue h2 => isTrue (by rw [h1, h2])
      | isFalse h2 => isFalse (fun hh => by injection hh with _ h3; exact h2 h3)

/-- Decidable equality for key-value lists of JSON objects. -/
def jvalObjDecEq : (xs ys : List (String × JVal)) → Decidable (xs = ys)
  | [], [] => isTrue rfl
  | [], _ :: _ => isFalse (fun h => List.noConfusion h)
  | _ :: _, [] => isFalse (fun h => List.noConfusion h)
  | (k1, v1) :: xs, (k2, v2) :: ys =>
    match decEq k1 k2 with
    | isFalse h => isFalse (fun hh => by
        injection hh with h1 _
        injection h1 with hk _
        exact h hk)
    | isTrue hk =>
      match jvalDecEq v1 v2 with
      | isFalse h => isFalse (fun hh => by
          injection hh with h1 _
          injection h1 with _ hv
          exact h hv)
      | isTrue hv =>
        match jvalObjDecEq xs ys with
        | isTrue h2 => isTrue (by rw [hk, hv, h2])
        | isFalse h2 => isFalse (fun hh => by injection hh with _ h3; exact h2 h3)

end

instance : DecidableEq JVal := jvalDecEq

/-- Association-list lookup, modelling Python dict lookup d[k] / d.get(k)
(keys are unique in a dict decoded from JSON, so first match is the match). -/
def alistFind (k : String) : List (String × JVal) → Option JVal
  | [] => none
  | (k2, v) :: rest => if k2 = k then some v else alistFind k rest

/-- Models Python dict.get(k, d) on an object's key-value list. -/
def jGet (kvs : List (String × JVal)) (k : String) (d : JVal) : JVal :=
  (alistFind k kvs).getD d

/-- Python truthiness of a JSON-decoded value: None and empty containers and
zero are falsy, everything else is truthy. -/
def pyTruthy : JVal → Bool
  | .null => false
  | .bool b => b
  | .int n => n != 0
  | .str s => !s.isEmpty
  | .arr xs => !xs.isEmpty
  | .obj kvs => !kvs.isEmpty

/-- Python len(): defined on strings, lists and dicts; raises TypeError on
None, booleans and numbers. -/
def pyLen : JVal → Except String Int
  | .str s => .ok s.length
  | .arr xs => .ok xs.length
  | .obj kvs => .ok kvs.length
  | _ => .error "TypeError: object has no len"

mutual

/-- Canonical form used to model Python equality: Python == identifies True
with 1 and False with 0 (also inside containers), so booleans are canonalised
to integers before structural comparison.  (Python dict == ignores key order;
this model compares objects order-sensitively, which is exact for all values
the repository ever compares: favorite identities are integers.) -/
def pyCanon : JVal → JVal
  | .null => .null
  | .bool b => .int (if b then 1 else 0)
  | .int n => .int n
  | .str s => .str s
  | .arr xs => .arr (pyCanonList xs)
  | .obj kvs => .obj (pyCanonObj kvs)

/-- Canonical form of a list of JSON values (elementwise pyCanon). -/
def pyCanonList : List JVal → List JVal
  | [] => []
  | x :: xs => pyCanon x :: pyCanonList xs

/-- Canonical form of an object's key-value list (pyCanon on the values). -/
def pyCanonObj : List (String × JVal) → List (String × JVal)
  | [] => []
  | (k, v) :: kvs => (k, pyCanon v) :: pyCanonObj kvs

end

/-- Python == on two JSON-decoded values, modelled as equality of canonical
forms (identifying booleans with 0/1 as Python does). -/
def pyEq (a b : JVal) : Bool := decide (pyCanon a = pyCanon b)

/-- Python membership x in xs over a list, which uses == elementwise. -/
def pyMem (x : JVal) (xs : List JVal) : Bool := xs.any (fun v => pyEq x v)

theorem pyEq_refl (a : JVal) : pyEq a a = true := by simp [pyEq]

theorem pyEq_symm {a b : JVal} (h : pyEq a b = true) : pyEq b a = true := by
  simp only [pyEq, decide_eq_true_eq] at h ⊢
  exact h.symm

theorem pyEq_trans {a b c : JVal} (h1 : pyEq a b = true) (h2 : pyEq b c = true) :
    pyEq a c = true := by
  simp only [pyEq, decide_eq_true_eq] at h1 h2 ⊢
  exact h1.trans h2

mutual

/-- Python repr() of a JSON-decoded value (string escaping elided: no claim
depends on the rendered text of composite or string values). -/
def pyRepr : JVal → String
  | .null => "None"
  | .bool true => "True"
  | .bool false => "False"
  | .int n => toString n
  | .str s => "\x27" ++ s ++ "\x27"
  | .arr xs => "[" ++ pyReprList xs ++ "]"
  | .obj kvs => "\x7b" ++ pyReprObj kvs ++ "\x7d"

/-- Comma-separated reprs of list elements. -/
def pyReprList : List JVal → String
  | [] => ""
  | [x] => pyRepr x
  | x :: y :: xs => pyRepr x ++ ", " ++ pyReprList (y :: xs)

/-- Comma-separated key: value reprs of dict items. -/
def pyReprObj : List (String × JVal) → String
  | [] => ""
  | [(k, v)] => "\x27" ++ k ++ "\x27: " ++ pyRepr v
  | (k, v) :: kv :: kvs => "\x27" ++ k ++ "\x27: " ++ pyRepr v ++ ", " ++ pyReprObj (kv :: kvs)

end

/-- Python str() of a JSON-decoded value: like repr, except a string renders
as itself. -/
def pyStr : JVal → String
  | .str s => s
  | v => pyRepr v

/-- Python subscript e[k] with a string key: dict lookup (KeyError when the
key is absent), TypeError on every non-dict value (integers, strings, lists,
None, booleans are not subscriptable by a string key). -/
def pySubscript (e : JVal) (k : String) : Except String JVal :=
  match e with
  | .obj kvs =>
    match alistFind k kvs with
    | some v => .ok v
    | none => .error ("KeyError: " ++ k)
  | _ => .error "TypeError: object is not subscriptable"

/-- Python floor division v // m for a JSON-decoded value: defined on
integers and booleans (True // m is 1 // m), TypeError otherwise. -/
def pyFloorDiv (v : JVal) (m : Int) : Except String Int :=
  match v with
  | .int n => .ok (Int.fdiv n m)
  | .bool b => .ok (Int.fdiv (if b then 1 else 0) m)
  | _ => .error "TypeError: unsupported operand types for floor division"

/-- Python v == n against an int literal (booleans compare as 0/1). -/
def pyEqInt (v : JVal) (n : Int) : Bool := pyEq v (.int n)

/-- Python v in d for a dict whose keys are the small integers of an enum
ordinal table: an int matches directly and a boolean matches as 0/1 (True ==
1 in Python); every other value matches no int key. -/
def pyIntKey : JVal → Option Int
  | .int n => some n
  | .bool b => some (if b then 1 else 0)
  | _ => none

/-! ## Result mapping: MapInfo (src/exchangeBrowser.py lines 169-241) -/

/-- The fields MapInfo.__init__ assigns on self (lines 171-215).  Values read
straight out of the JSON record keep type JVal; values computed by the enum
and length helpers are strings. -/
structure MapInfo where
  TrackID : JVal
  Name : JVal
  GbxMapName : JVal
  Username : JVal
  UserID : JVal
  AuthorLogin : JVal
  EnvironmentName : String
  DifficultyName : String
  VehicleName : JVal
  MapType : JVal
  TitlePack : JVal
  Mood : JVal
  Length : JVal
  LengthName : String
  AwardCount : JVal
  CommentCount : JVal
  DownloadCount : JVal
  ReplayCount : JVal
  TrackValue : JVal
  ReplayWRTime : JVal
  ReplayWRUsername : JVal
  UploadedAt : JVal
  UpdatedAt : JVal
  HasThumbnail : JVal
  HasImages : JVal
  Downloadable : Bool
deriving DecidableEq

/-- MapInfo.get_enum_name (lines 219-226): look the value up in the fixed
ordinal table for the enum kind; an unknown ordinal (or a non-integer value)
falls back to its textual representation str(value).  Python dict key lookup
identifies True with 1 and False with 0. -/
def get_enum_name (value : JVal) (enumType : String) : String :=
  let envTable : List (Int × String) :=
    [(0, "Stadium"), (1, "Snow"), (2, "Rally"), (3, "Desert")]
  let diffTable : List (Int × String) :=
    [(0, "Beginner"), (1, "Intermediate"), (2, "Advanced"), (3, "Expert"), (4, "Expert+")]
  let table : Option (List (Int × String)) :=
    if enumType = "environment" then some envTable
    else if enumType = "difficulty" then some diffTable
    else none
  match table with
  | none => pyStr value
  | some t =>
    match pyIntKey value with
    | some k =>
      match t.lookup k with
      | some name => name
      | none => pyStr value
    | none => pyStr value

/-- MapInfo.get_length_name (lines 228-241): bucket a track length in
milliseconds into the fixed human-readable ranges.  Python raises a TypeError
on length_ms // 1000 when the value is neither an integer nor a boolean. -/
def get_length_name (length_ms : JVal) : Except String String :=
  if pyEqInt length_ms 0 then .ok "0-30 sec"
  else
    match pyFloorDiv length_ms 1000 with
    | .error m => .error m
    | .ok seconds =>
      .ok (if seconds < 30 then "0-30 sec"
        else if seconds < 60 then "30-60 sec"
        else if seconds < 120 then "1-2 min"
        else if seconds < 300 then "2-5 min"
        else "5+ min")

/-- The AuthorLogin computation of MapInfo.__init__ (lines 179-184): start
from the empty string; when the Authors value is truthy with positive len,
take authors[0].get("User", {}) (raising as Python does when authors has no
len or authors[0] is not a dict) and, if that is a dict, its "Name". -/
def mapAuthorLogin (authors : JVal) : Except String JVal :=
  if pyTruthy authors then
    match pyLen authors with
    | .error m => .error m
    | .ok n =>
      if n > 0 then
        match authors with
        | .arr (x :: _) =>
          match x with
          | .obj kvs =>
            let author_user := jGet kvs "User" (.obj [])
            match author_user with
            | .obj ukvs => .ok (jGet ukvs "Name" (.str ""))
            | _ => .ok (.str "")
          | _ => .error "AttributeError: object has no attribute get"
        | .str _ => .error "AttributeError: object has no attribute get"
        | .obj _ => .error "KeyError: 0"
        | _ => .error "TypeError: object is not subscriptable"
      else .ok (.str "")
  else .ok (.str "")

/-- MapInfo.__init__ (lines 170-217): construct the display record from one
JSON result record.  A non-dict record raises at the first .get, the Authors
list raises as mapAuthorLogin describes, and get_length_name raises on a
non-numeric Length; every other nested lookup degrades to a default. -/
def mkMapInfo (json_data : JVal) : Except String MapInfo :=
  match json_data with
  | .obj kvs =>
    let uploader := jGet kvs "Uploader" (.obj [])
    let username : JVal :=
      match uploader with
      | .obj ukvs => jGet ukvs "Name" (.str "")
      | _ => .str ""
    let userId : JVal :=
      match uploader with
      | .obj ukvs => jGet ukvs "UserId" .null
      | _ => .null
    match mapAuthorLogin (jGet kvs "Authors" (.arr [])) with
    | .error m => .error m
    | .ok authorLogin =>
      let lengthVal := jGet kvs "Length" (.int 0)
      match get_length_name lengthVal with
      | .error m => .error m
      | .ok lengthName =>
        let onlineWR := jGet kvs "OnlineWR" (.obj [])
        let wrTime : JVal :=
          match onlineWR with
          | .obj wkvs => jGet wkvs "RecordTime" (.int 0)
          | _ => .int 0
        let wrUsername : JVal :=
          match onlineWR with
          | .obj wkvs =>
            match jGet wkvs "User" (.obj []) with
            | .obj ukvs => jGet ukvs "Name" (.str "")
            | _ => .str ""
          | _ => .str ""
        .ok
          { TrackID := jGet kvs "MapId" .null
            Name := jGet kvs "Name" (.str "")
            GbxMapName := jGet kvs "GbxMapName" (.str "")
            Username := username
            UserID := userId
            AuthorLogin := authorLogin
            EnvironmentName := get_enum_name (jGet kvs "Environment" .null) "environment"
            DifficultyName := get_enum_name (jGet kvs "Difficulty" .null) "difficulty"
            VehicleName := jGet kvs "VehicleName" (.str "")
            MapType := jGet kvs "MapType" (.str "")
            TitlePack := jGet kvs "TitlePack" (.str "")
            Mood := jGet kvs "Mood" (.str "")
            Length := lengthVal
            LengthName := lengthName
            AwardCount := jGet kvs "AwardCount" (.int 0)
            CommentCount := jGet kvs "CommentCount" (.int 0)
            DownloadCount := jGet kvs "DownloadCount" (.int 0)
            ReplayCount := jGet kvs "ReplayCount" (.int 0)
            TrackValue := jGet kvs "TrackValue" (.int 0)
            ReplayWRTime := wrTime
            ReplayWRUsername := wrUsername
            UploadedAt := jGet kvs "UploadedAt" (.str "")
            UpdatedAt := jGet kvs "UpdatedAt" (.str "")
            HasThumbnail := jGet kvs "HasThumbnail" (.bool false)
            HasImages := jGet kvs "HasImages" (.bool false)
            Downloadable := true }
  | _ => .error "AttributeError: object has no attribute get"

/-- The iteration [MapInfo(m) for m in results] of SearchWorker.run (line
354): iterating a list maps each element; an empty string or empty dict
yields no elements; a non-empty string or dict yields non-dict items, so the
first MapInfo(...) raises; other values are not iterable. -/
def mapInfoListOf : JVal → Except String (List MapInfo)
  | .arr xs => xs.mapM mkMapInfo
  | .str s => if s.isEmpty then .ok [] else .error "AttributeError: object has no attribute get"
  | .obj kvs => if kvs.isEmpty then .ok [] else .error "AttributeError: object has no attribute get"
  | _ => .error "TypeError: object is not iterable"

/-- SearchWorker.run, the response handling after the HTTP call (lines
351-358): when the decoded body is a dict with a "Results" key, map every
result record through MapInfo; otherwise deliver the empty list. -/
def processSearchResults (data : JVal) : Except String (List MapInfo) :=
  match data with
  | .obj kvs =>
    match alistFind "Results" kvs with
    | some results => mapInfoListOf results
    | none => .ok []
  | _ => .ok []

/-! ## Query builder: search_browse (lines 836-886) and SearchWorker (342-344) -/

/-- The 27 projection fields COMMON_FIELDS (lines 127-134). -/
def COMMON_FIELDS : List String :=
  ["MapId", "Name", "GbxMapName", "Uploader.UserId", "Uploader.Name",
   "Environment", "Difficulty", "Length", "Vehicle", "MapType",
   "CommentCount", "DownloadCount", "ReplayCount", "AwardCount",
   "UploadedAt", "UpdatedAt", "ActivityAt", "HasThumbnail",
   "HasImages", "TrackValue", "OnlineWR", "TitlePack",
   "Style", "Mood", "Routes", "Type", "Authors", "Tags"]

/-- The comma-joined projection list sent as the fields parameter. -/
def fieldsJoined : String := String.intercalate "," COMMON_FIELDS

/-- The sort-name to order1-ordinal table self.sort_options (lines 564-580). -/
def sort_options : List (String × Int) :=
  [("Uploaded (Newest)", 6), ("Uploaded (Oldest)", 5), ("Updated (Newest)", 8),
   ("Name (A-Z)", 1), ("Name (Z-A)", 2), ("Awards (Most)", 12), ("Awards (Least)", 11),
   ("Difficulty (Hardest)", 16), ("Difficulty (Easiest)", 15), ("Length (Longest)", 18),
   ("Length (Shortest)", 17), ("Downloads (Most)", 20), ("Downloads (Least)", 19),
   ("Rating (Most)", 30), ("Rating (Least)", 29)]

/-- The environment ordinal table env_map of search_browse (line 857). -/
def env_map : List (String × Int) :=
  [("Stadium", 0), ("Snow", 1), ("Rally", 2), ("Desert", 3)]

/-- The difficulty ordinal table diff_map of search_browse (line 863). -/
def diff_map : List (String × Int) :=
  [("Beginner", 0), ("Intermediate", 1), ("Advanced", 2), ("Expert", 3)]

/-- The length-bucket table length_map of search_browse (lines 869-875):
bucket label to a (lengthmin, lengthmax) pair in milliseconds. -/
def length_map : List (String × (Int × Int)) :=
  [("0-30 sec", (0, 30000)), ("30-60 sec", (30000, 60000)), ("1-2 min", (60000, 120000)),
   ("2-5 min", (120000, 300000)), ("5+ min", (300000, 999999999))]

/-- Generic association lookup for tables whose values are not JVal. -/
def tblFind {α : Type} (k : String) : List (String × α) → Option α
  | [] => none
  | (k2, v) :: rest => if k2 = k then some v else tblFind k rest

/-- The state of the search widgets a call to search_browse reads: the two
free-text inputs, the selections of the sort, environment, difficulty and
length combo boxes, and the result-limit spin box value. -/
structure SearchFilters where
  name : String
  author : String
  sortText : String
  env : String
  diff : String
  length : String
  limit : Int

/-- Models the QSpinBox range clamp: self.limit_spin has setRange(10, 100)
(line 601), so the value read back by search_browse always lies in 10..100
(a value set outside the range is clamped by the widget). -/
def spinClamp (n : Int) : Int := max 10 (min 100 n)

/-- Python dict item assignment d[k] = v on an association list: replace the
value when the key is present, append the item otherwise. -/
def pySetItem (p : List (String × JVal)) (k : String) (v : JVal) : List (String × JVal) :=
  match p with
  | [] => [(k, v)]
  | (k2, v2) :: rest => if k2 = k then (k, v) :: rest else (k2, v2) :: pySetItem rest k v

/-- Python str.strip() with no arguments: drop leading and trailing
whitespace (written structurally over the character list so that it
evaluates by reduction). -/
def pyStrip (s : String) : String :=
  String.mk (((s.data.dropWhile Char.isWhitespace).reverse.dropWhile Char.isWhitespace).reverse)

/-- search_browse lines 843-845: the name filter contributes a key exactly
when the stripped text is non-empty. -/
def namePart (f : SearchFilters) : List (String × JVal) :=
  if pyStrip f.name ≠ "" then [("name", .str (pyStrip f.name))] else []

/-- search_browse lines 847-849: the author filter, same shape as name. -/
def authorPart (f : SearchFilters) : List (String × JVal) :=
  if pyStrip f.author ≠ "" then [("author", .str (pyStrip f.author))] else []

/-- search_browse lines 851-853: the current sort text contributes order1
when it is a key of sort_options (the combo box always shows one of them). -/
def sortPart (f : SearchFilters) : List (String × JVal) :=
  match tblFind f.sortText sort_options with
  | some o => [("order1", .int o)]
  | none => []

/-- search_browse lines 855-859: a non-All environment selection found in
env_map contributes the environment ordinal. -/
def envPart (f : SearchFilters) : List (String × JVal) :=
  if f.env ≠ "All" then
    match tblFind f.env env_map with
    | some o => [("environment", .int o)]
    | none => []
  else []

/-- search_browse lines 861-865: the difficulty filter, same shape. -/
def diffPart (f : SearchFilters) : List (String × JVal) :=
  if f.diff ≠ "All" then
    match tblFind f.diff diff_map with
    | some o => [("difficulty", .int o)]
    | none => []
  else []

/-- search_browse lines 867-879: a non-All length selection found in
length_map contributes the lengthmin/lengthmax pair. -/
def lengthPart (f : SearchFilters) : List (String × JVal) :=
  if f.length ≠ "All" then
    match tblFind f.length length_map with
    | some p => [("lengthmin", .int p.fst), ("lengthmax", .int p.snd)]
    | none => []
  else []

/-- search_browse lines 841-881: the params dict handed to SearchWorker.
Every key is written at most once, so the successive dict assignments are
the concatenation of the per-filter fragments, ending with count (line 881),
whose value is the range-clamped spin box value. -/
def search_browse_params (f : SearchFilters) : List (String × JVal) :=
  namePart f ++ authorPart f ++ sortPart f ++ envPart f ++ diffPart f ++ lengthPart f
    ++ [("count", .int (spinClamp f.limit))]

/-- SearchWorker.run line 344: the worker adds the projection field list to
the params dict before issuing the request. -/
def searchQuery (f : SearchFilters) : List (String × JVal) :=
  pySetItem (search_browse_params f) "fields" (.str fieldsJoined)

/-! ## Favorites store (Config, lines 141-166; browser methods, 1160-1308) -/

/-- The in-memory favorites store the browser mutates: the two ordered entry
lists self.favorites["maps"] and self.favorites["mappacks"]. -/
structure FavStore where
  maps : List JVal
  mappacks : List JVal
deriving DecidableEq

/-- The JSON object json.dump writes for a favorites store (line 163). -/
def favToJson (st : FavStore) : JVal :=
  .obj [("maps", .arr st.maps), ("mappacks", .arr st.mappacks)]

/-- The observable states of the favorites file: absent, present but not
valid JSON, or present with a decoded JSON value (serialisation to text and
parsing back are faithful for JSON-representable data, so the file is
modelled as holding the decoded value). -/
inductive FileState where
  | missing : FileState
  | malformed : FileState
  | content (j : JVal) : FileState
deriving DecidableEq

/-- The raw dict Config.load_favorites returns, with keys "maps" and
"mappacks" whose values come straight from the file. -/
structure RawFav where
  maps : JVal
  mappacks : JVal
deriving DecidableEq

/-- The empty store both fallback paths of Config.load_favorites return. -/
def emptyRawFav : RawFav := ⟨.arr [], .arr []⟩

/-- Config.load_favorites (lines 145-157).  A missing file skips the try
body and returns the empty store without logging; a malformed file makes
json.load raise, which is caught, logged and turned into the empty store; a
decoded non-dict value makes data.get raise, with the same caught-and-logged
outcome; a decoded dict yields its "maps"/"mappacks" values with empty-list
defaults.  The Bool records whether the except branch logged an error. -/
def load_favorites : FileState → RawFav × Bool
  | .missing => (emptyRawFav, false)
  | .malformed => (emptyRawFav, true)
  | .content j =>
    match j with
    | .obj kvs => (⟨jGet kvs "maps" (.arr []), jGet kvs "mappacks" (.arr [])⟩, false)
    | _ => (emptyRawFav, true)

/-- Config.save_favorites (lines 159-166): on success the file ends up
holding the JSON object serialised from the in-memory store. -/
def save_favorites (st : FavStore) : FileState := .content (favToJson st)

/-- The observable steps of Config.save_favorites: opening the destination
file in mode w (which truncates it), producing one chunk of serialised
output in memory, and writing one chunk to the destination. -/
inductive SaveEvent where
  | openDest : SaveEvent
  | serialize (chunk : String) : SaveEvent
  | write (chunk : String) : SaveEvent
deriving DecidableEq

mutual

/-- The incremental chunk stream json.dump produces for a value: json.dump
serialises into the file object chunk by chunk (it does not build the whole
document in memory first).  Chunk granularity and text (escaping, indent)
are elided; no claim depends on the chunk text, only on the interleaving. -/
def jsonChunks : JVal → List String
  | .null => ["null"]
  | .bool true => ["true"]
  | .bool false => ["false"]
  | .int n => [toString n]
  | .str s => ["\"" ++ s ++ "\""]
  | .arr xs => ["["] ++ jsonChunksList xs ++ ["]"]
  | .obj kvs => ["\x7b"] ++ jsonChunksObj kvs ++ ["\x7d"]

/-- Chunk stream of the elements of an array. -/
def jsonChunksList : List JVal → List String
  | [] => []
  | [x] => jsonChunks x
  | x :: y :: xs => jsonChunks x ++ [","] ++ jsonChunksList (y :: xs)

/-- Chunk stream of the items of an object. -/
def jsonChunksObj : List (String × JVal) → List String
  | [] => []
  | [(k, v)] => ["\"" ++ k ++ "\": "] ++ jsonChunks v
  | (k, v) :: kv :: kvs => ["\"" ++ k ++ "\": "] ++ jsonChunks v ++ [","] ++ jsonChunksObj (kv :: kvs)

end

/-- The event trace of Config.save_favorites (lines 162-163): open(..., 'w')
truncates the destination first, then json.dump(favorites, f) alternates
producing a serialised chunk with writing it to the already-open file. -/
def save_favorites_trace (st : FavStore) : List SaveEvent :=
  SaveEvent.openDest ::
    (jsonChunks (favToJson st)).flatMap (fun c => [SaveEvent.serialize c, SaveEvent.write c])

/-- Whether a step touches the destination file (truncating open or write). -/
def touchesDest : SaveEvent → Bool
  | .openDest => true
  | .write _ => true
  | .serialize _ => false

/-- Whether a step is a serialisation step. -/
def isSerializeStep : SaveEvent → Bool
  | .serialize _ => true
  | _ => false

/-- The property the specification demands of save: the destination file is
touched only after the data is fully serialised in memory, i.e. after the
first step that touches the destination no serialisation step remains. -/
def writesOnlyAfterSerialized (tr : List SaveEvent) : Bool :=
  (tr.dropWhile (fun e => !touchesDest e)).all (fun e => !isSerializeStep e)

/-- Replay of a save trace against the current content of the destination
file: the truncating open empties it, each write appends its chunk, a
serialisation step leaves it unchanged.  Replaying a prefix of the trace
gives the file content left behind when the save fails at that point. -/
def applySaveEvents (tr : List SaveEvent) (file : String) : String :=
  match tr with
  | [] => file
  | .openDest :: rest => applySaveEvents rest ""
  | .serialize _ :: rest => applySaveEvents rest file
  | .write c :: rest => applySaveEvents rest (file ++ c)

/-- Result of an add operation: the in-memory store afterwards, whether the
status label reported "Already in favorites", and the store passed to
Config.save_favorites when a save happened. -/
structure AddResult where
  store : FavStore
  alreadyPresent : Bool
  saved : Option FavStore
deriving DecidableEq

/-- The list comprehension [fav["id"] for fav in entries] (lines 1165 and
1188): subscripts every stored entry, propagating the first KeyError or
TypeError. -/
def mapIdsOf : List JVal → Except String (List JVal)
  | [] => .ok []
  | e :: rest =>
    match pySubscript e "id" with
    | .error m => .error m
    | .ok v =>
      match mapIdsOf rest with
      | .error m => .error m
      | .ok vs => .ok (v :: vs)

/-- The favorite entry add_to_favorites appends (lines 1194-1198). -/
def favEntry (tid nm au : JVal) : JVal :=
  .obj [("id", tid), ("name", nm), ("author", au)]

/-- The favorite entry add_mappack_to_favorites appends (lines 1171-1176). -/
def favMappackEntry (pid nm au mc : JVal) : JVal :=
  .obj [("id", pid), ("name", nm), ("author", au), ("map_count", mc)]

/-- TrackmaniaExchangeBrowser.add_to_favorites (lines 1183-1203), with a map
selected whose TrackID/Name/Username are the three arguments: collect every
stored id (which can raise), report already-present without touching the
store when the id is found, otherwise append the new entry and persist the
whole store. -/
def add_to_favorites (st : FavStore) (tid nm au : JVal) : Except String AddResult :=
  match mapIdsOf st.maps with
  | .error m => .error m
  | .ok ids =>
    if pyMem tid ids then .ok ⟨st, true, none⟩
    else
      let st2 : FavStore := ⟨st.maps ++ [favEntry tid nm au], st.mappacks⟩
      .ok ⟨st2, false, some st2⟩

/-- TrackmaniaExchangeBrowser.add_mappack_to_favorites (lines 1160-1181):
the same shape over the mappacks list, with a map_count field. -/
def add_mappack_to_favorites (st : FavStore) (pid nm au mc : JVal) : Except String AddResult :=
  match mapIdsOf st.mappacks with
  | .error m => .error m
  | .ok ids =>
    if pyMem pid ids then .ok ⟨st, true, none⟩
    else
      let st2 : FavStore := ⟨st.maps, st.mappacks ++ [favMappackEntry pid nm au mc]⟩
      .ok ⟨st2, false, some st2⟩

/-- The filtering comprehension [fav for fav in entries if fav["id"] !=
item_id] (lines 1303 and 1305): subscripts every entry, keeping those whose
id is not Python-equal to the given identity. -/
def removeList (entries : List JVal) (itemId : JVal) : Except String (List JVal) :=
  match entries with
  | [] => .ok []
  | e :: rest =>
    match pySubscript e "id" with
    | .error m => .error m
    | .ok v =>
      match removeList rest itemId with
      | .error m => .error m
      | .ok r => .ok (if pyEq v itemId then r else e :: r)

/-- TrackmaniaExchangeBrowser.remove_favorite (lines 1293-1308), given the
selected item's identity and kind tag: rebuild the designated list without
the matching entries (maps when the tag is "map", mappacks otherwise) and
persist the store. -/
def remove_favorite (st : FavStore) (itemId : JVal) (itemType : String) :
    Except String FavStore :=
  if itemType = "map" then
    match removeList st.maps itemId with
    | .error m => .error m
    | .ok l => .ok ⟨l, st.mappacks⟩
  else
    match removeList st.mappacks itemId with
    | .error m => .error m
    | .ok l => .ok ⟨st.maps, l⟩

/-- The per-entry identity the favorites tab renders: fav.get("id") for a
dict entry (None when absent), the bare value itself for a legacy entry
(lines 1210 and 1225). -/
def favItemId (e : JVal) : JVal :=
  match e with
  | .obj kvs => jGet kvs "id" .null
  | v => v

/-- The per-entry author display value: fav.get("author", "Unknown") for a
dict entry, the placeholder "Unknown" for a legacy bare entry (lines 1212
and 1227). -/
def favItemAuthor (e : JVal) : JVal :=
  match e with
  | .obj kvs => jGet kvs "author" (.str "Unknown")
  | _ => .str "Unknown"

/-- Whether an entry is a dict (Python isinstance(fav, dict)). -/
def entryIsObj : JVal → Bool
  | .obj _ => true
  | _ => false

/-- The ordered identity sequence of a loaded favorites list value: for an
array, the rendered identity of each element in order. -/
def idSeqOf : JVal → List JVal
  | .arr xs => xs.map favItemId
  | _ => []

/-- An entry the duplicate check and the remove filter can subscript: a
dict carrying an "id" key. -/
def entryHasId : JVal → Bool
  | .obj kvs => (alistFind "id" kvs).isSome
  | _ => false

/-- Every entry of the list is a dict with an "id" key. -/
def entriesWF (l : List JVal) : Bool := l.all entryHasId

/-- Every dict entry of the list has an "id" key (non-dict entries allowed). -/
def objEntriesHaveId (l : List JVal) : Bool :=
  l.all (fun e => match e with
    | .obj kvs => (alistFind "id" kvs).isSome
    | _ => true)

/-- The ids of the well-formed entries of a list, in order. -/
def idsOfWF (l : List JVal) : List JVal :=
  l.filterMap (fun e => match e with
    | .obj kvs => alistFind "id" kvs
    | _ => none)

/-- No two elements of the list are Python-equal (the no-duplicate-identity
invariant of the favorites lists, applied to their id sequences). -/
def pyNodup : List JVal → Bool
  | [] => true
  | x :: xs => !(pyMem x xs) && pyNodup xs

/-- Number of entries of the list whose stored id is Python-equal to x. -/
def favIdCount (entries : List JVal) (x : JVal) : Nat :=
  (idsOfWF entries).countP (fun v => pyEq x v)

/-- Whether an Except result is a success. -/
def isOkE {α : Type} : Except String α → Bool
  | .ok _ => true
  | .error _ => false

/-! ## Helper lemmas -/

theorem alistFind_append (k : String) (a b : List (String × JVal)) :
    alistFind k (a ++ b) = (alistFind k a).or (alistFind k b) := by
  induction a with
  | nil => simp [alistFind]
  | cons kv rest ih =>
    obtain ⟨k2, v⟩ := kv
    by_cases h : k2 = k
    · simp [alistFind, h]
    · simp [alistFind, h, ih]

theorem alistFind_append_none {k : String} {a : List (String × JVal)}
    (h : alistFind k a = none) (b : List (String × JVal)) :
    alistFind k (a ++ b) = alistFind k b := by
  rw [alistFind_append, h]; rfl

theorem alistFind_setItem_ne {k k2 : String} (h : k2 ≠ k) (p : List (String × JVal))
    (v : JVal) : alistFind k (pySetItem p k2 v) = alistFind k p := by
  induction p with
  | nil => simp [pySetItem, alistFind, h]
  | cons kv rest ih =>
    obtain ⟨k3, v3⟩ := kv
    by_cases h3 : k3 = k2
    · subst h3
      simp [pySetItem, alistFind, h]
    · by_cases h4 : k3 = k
      · simp [pySetItem, alistFind, h3, h4, Ne.symm h]
      · simp [pySetItem, alistFind, h3, h4, Ne.symm h, ih]

theorem namePart_find_ne {k : String} (h : k ≠ "name") (f : SearchFilters) :
    alistFind k (namePart f) = none := by
  unfold namePart
  split
  · simp [alistFind, Ne.symm h]
  · rfl

theorem authorPart_find_ne {k : String} (h : k ≠ "author") (f : SearchFilters) :
    alistFind k (authorPart f) = none := by
  unfold authorPart
  split
  · simp [alistFind, Ne.symm h]
  · rfl

theorem sortPart_find_ne {k : String} (h : k ≠ "order1") (f : SearchFilters) :
    alistFind k (sortPart f) = none := by
  unfold sortPart
  split
  · simp [alistFind, Ne.symm h]
  · rfl

theorem envPart_find_ne {k : String} (h : k ≠ "environment") (f : SearchFilters) :
    alistFind k (envPart f) = none := by
  unfold envPart
  split
  · split
    · simp [alistFind, Ne.symm h]
    · rfl
  · rfl

theorem diffPart_find_ne {k : String} (h : k ≠ "difficulty") (f : SearchFilters) :
    alistFind k (diffPart f) = none := by
  unfold diffPart
  split
  · split
    · simp [alistFind, Ne.symm h]
    · rfl
  · rfl

/-- Looking any key other than the fixed ones up in the built query reduces
to looking it up in the length fragment. -/
theorem searchQuery_find_other (f : SearchFilters) (k : String)
    (h1 : k ≠ "name") (h2 : k ≠ "author") (h3 : k ≠ "order1")
    (h4 : k ≠ "environment") (h5 : k ≠ "difficulty") (h6 : k ≠ "count")
    (h7 : k ≠ "fields") :
    alistFind k (searchQuery f) = alistFind k (lengthPart f) := by
  unfold searchQuery search_browse_params
  rw [alistFind_setItem_ne (Ne.symm h7)]
  have hc : alistFind k [("count", JVal.int (spinClamp f.limit))] = none := by
    simp [alistFind, Ne.symm h6]
  simp only [alistFind_append, namePart_find_ne h1 f, authorPart_find_ne h2 f,
    sortPart_find_ne h3 f, envPart_find_ne h4 f, diffPart_find_ne h5 f, hc]
  cases alistFind k (lengthPart f) <;> rfl

/-- The fixed length-bucket table exactly as the specification states it:
each non-All bucket label maps to its (lengthmin, lengthmax) millisecond
pair, the final bucket closing with the large sentinel; every other string
(including "All") contributes no range.  Stated independently of the code
table so the two can be compared. -/
def specLengthRange : String → Option (Int × Int)
  | "0-30 sec" => some (0, 30000)
  | "30-60 sec" => some (30000, 60000)
  | "1-2 min" => some (60000, 120000)
  | "2-5 min" => some (120000, 300000)
  | "5+ min" => some (300000, 999999999)
  | _ => none

theorem tblFind_length_spec (s : String) : tblFind s length_map = specLengthRange s := by
  by_cases h1 : s = "0-30 sec"
  · rw [h1]; rfl
  by_cases h2 : s = "30-60 sec"
  · rw [h2]; rfl
  by_cases h3 : s = "1-2 min"
  · rw [h3]; rfl
  by_cases h4 : s = "2-5 min"
  · rw [h4]; rfl
  by_cases h5 : s = "5+ min"
  · rw [h5]; rfl
  have t : tblFind s length_map = none := by
    simp [tblFind, length_map, Ne.symm h1, Ne.symm h2, Ne.symm h3, Ne.symm h4, Ne.symm h5]
  have sp : specLengthRange s = none := by
    unfold specLengthRange
    split
    · exact absurd rfl h1
    · exact absurd rfl h2
    · exact absurd rfl h3
    · exact absurd rfl h4
    · exact absurd rfl h5
    · rfl
  rw [t, sp]

theorem lengthPart_eq (f : SearchFilters) :
    lengthPart f =
      match specLengthRange f.length with
      | some p => [("lengthmin", JVal.int p.fst), ("lengthmax", JVal.int p.snd)]
      | none => [] := by
  unfold lengthPart
  by_cases h : f.length = "All"
  · rw [h]
    rfl
  · rw [if_pos h, tblFind_length_spec]

/-- C5: for every search-filter state, the built query's lengthmin and
lengthmax entries are exactly the pair the fixed length-bucket table assigns
to the current length selection — present with the table's values for the
five bucket labels and absent for "All" (and any other selection). -/
theorem spec_C5_length_table (f : SearchFilters) :
    alistFind "lengthmin" (searchQuery f)
        = Option.map (fun p => JVal.int p.fst) (specLengthRange f.length) ∧
      alistFind "lengthmax" (searchQuery f)
        = Option.map (fun p => JVal.int p.snd) (specLengthRange f.length) := by
  have hmin := searchQuery_find_other f "lengthmin" (by decide) (by decide) (by decide)
    (by decide) (by decide) (by decide) (by decide)
  have hmax := searchQuery_find_other f "lengthmax" (by decide) (by decide) (by decide)
    (by decide) (by decide) (by decide) (by decide)
  constructor
  · rw [hmin, lengthPart_eq]
    cases specLengthRange f.length with
    | none => rfl
    | some p => rfl
  · rw [hmax, lengthPart_eq]
    cases specLengthRange f.length with
    | none => rfl
    | some p => rfl

/-- The filter state the claim calls all-absent: empty name and author, the
All defaults for environment, difficulty and length — with the sort combo
showing its first entry, as the widget always shows one of its 15 entries. -/
def fAllDefault : SearchFilters :=
  ⟨"", "", "Uploaded (Newest)", "All", "All", "All", 25⟩

/-- C1 counterexample: with every optional field absent in the claim's sense
(empty name/author, All environment/difficulty/length) the built query is
not limited to the count and fields keys — the always-selected sort option
contributes an order1 key. -/
theorem spec_C1_counterexample :
    (pyStrip fAllDefault.name = "" ∧ pyStrip fAllDefault.author = ""
        ∧ fAllDefault.env = "All" ∧ fAllDefault.diff = "All"
        ∧ fAllDefault.length = "All")
      ∧ ¬(∀ kv ∈ searchQuery fAllDefault, kv.fst = "count" ∨ kv.fst = "fields") := by
  constructor
  · exact ⟨rfl, rfl, rfl, rfl, rfl⟩
  · intro h
    have hm : ("order1", JVal.int 6) ∈ searchQuery fAllDefault := by decide
    rcases h _ hm with h1 | h1 <;> exact absurd h1 (by decide)

/-- C1 as amended: when name and author strip to empty, environment,
difficulty and length show their All defaults, and the sort combo shows a
recognised sort option with ordinal o, the query SearchWorker sends consists
of exactly the sort ordinal, the clamped result count and the projection
field list, and nothing else. -/
theorem spec_C1_corrected (f : SearchFilters) (o : Int)
    (h1 : pyStrip f.name = "") (h2 : pyStrip f.author = "")
    (h3 : f.env = "All") (h4 : f.diff = "All") (h5 : f.length = "All")
    (h6 : tblFind f.sortText sort_options = some o) :
    searchQuery f = [("order1", JVal.int o),
      ("count", JVal.int (spinClamp f.limit)), ("fields", JVal.str fieldsJoined)] := by
  unfold searchQuery search_browse_params namePart authorPart sortPart envPart diffPart
    lengthPart
  rw [h1, h2, h3, h4, h5, h6]
  simp [pySetItem]

/-- C1 witness: the amended statement evaluated at the all-default filter
state. -/
theorem spec_C1_witness :
    searchQuery fAllDefault = [("order1", JVal.int 6),
      ("count", JVal.int (spinClamp 25)), ("fields", JVal.str fieldsJoined)] :=
  spec_C1_corrected fAllDefault 6 rfl rfl rfl rfl rfl rfl

/-- The search response envelope of the end-to-end scenario. -/
def envC6 : JVal :=
  .obj [("Results", .arr [.obj [("MapId", .int 42), ("Name", .str "Test Track"),
    ("Length", .int 45000), ("Environment", .int 1)]])]

/-- C6: mapping the single-record search response yields exactly one record,
with id 42, name Test Track, length bucket 30-60 sec, environment name Snow,
and zero awards, comments, downloads, replays and track value. -/
theorem spec_C6_end_to_end :
    (processSearchResults envC6).map (fun l =>
        l.map (fun m => (m.TrackID, m.Name, m.LengthName, m.EnvironmentName,
          m.AwardCount, m.CommentCount, m.DownloadCount, m.ReplayCount, m.TrackValue)))
      = Except.ok [(JVal.int 42, JVal.str "Test Track", "30-60 sec", "Snow",
          JVal.int 0, JVal.int 0, JVal.int 0, JVal.int 0, JVal.int 0)] := by
  rfl

/-- The record C4 fails on: an Authors value of unexpected shape (a list
whose first element is not a dict). -/
def recC4 : JVal := .obj [("Authors", .arr [.int 42])]

/-- C4: constructing a MapInfo is not total over unexpected nested shapes —
an Authors list whose first element is not a dict raises (authors[0].get on
an int) instead of degrading to the empty author login; a record missing
Uploader, Authors and OnlineWR entirely does degrade to empty username,
empty author login and zero world-record time. -/
theorem spec_C4_authors_raise :
    mkMapInfo recC4 = Except.error "AttributeError: object has no attribute get"
      ∧ (mkMapInfo (JVal.obj [])).map (fun m => (m.Username, m.AuthorLogin, m.ReplayWRTime))
          = Except.ok (JVal.str "", JVal.str "", JVal.int 0) := by
  exact ⟨rfl, rfl⟩

/-- C7: favorites load never raises (it is a total function of the file
state); a missing file loads as the empty store without logging, and a
malformed file loads as the same empty store with the condition logged. -/
theorem spec_C7_load_total :
    load_favorites FileState.missing = (emptyRawFav, false)
      ∧ load_favorites FileState.malformed = (emptyRawFav, true) := by
  exact ⟨rfl, rfl⟩

/-- C3: persisting a favorites store and reloading it reproduces the ordered
identity sequence of both lists — including legacy bare-identifier entries,
which survive the round trip unchanged (load is a total function, so they
load without error) and whose author renders as the placeholder Unknown. -/
theorem spec_C3_roundtrip (st : FavStore) :
    idSeqOf (load_favorites (save_favorites st)).fst.maps = st.maps.map favItemId
      ∧ idSeqOf (load_favorites (save_favorites st)).fst.mappacks = st.mappacks.map favItemId
      ∧ (∀ e : JVal, entryIsObj e = false → favItemAuthor e = JVal.str "Unknown") := by
  refine ⟨rfl, rfl, ?_⟩
  intro e he
  cases e with
  | obj kvs => simp [entryIsObj] at he
  | null => rfl
  | bool b => rfl
  | int n => rfl
  | str s => rfl
  | arr xs => rfl

/-- A favorites store holding one legacy bare-identifier entry next to one
dict entry. -/
def stLegacy : FavStore :=
  ⟨[JVal.int 5, JVal.obj [("id", JVal.int 7), ("name", JVal.str "m"), ("author", JVal.str "a")]], []⟩

/-- C3 witness: the round trip and the legacy placeholder evaluated on a
store with a bare-identifier entry. -/
theorem spec_C3_witness :
    idSeqOf (load_favorites (save_favorites stLegacy)).fst.maps = stLegacy.maps.map favItemId
      ∧ favItemAuthor (JVal.int 5) = JVal.str "Unknown" :=
  ⟨(spec_C3_roundtrip stLegacy).1, (spec_C3_roundtrip stLegacy).2.2 (JVal.int 5) rfl⟩

/-- C9 counterexample: already for the empty favorites store, the save trace
does not write to the destination only after serialisation is complete — the
truncating open of the destination precedes every serialisation step, and
each chunk is written as soon as it is produced. -/
theorem spec_C9_counterexample :
    writesOnlyAfterSerialized (save_favorites_trace ⟨[], []⟩) = false := by
  rfl

/-- C9 as amended: save opens and truncates the destination before any
serialisation output exists — replaying the one-step prefix of the trace
(a failure at the very start of serialisation) leaves the file empty, not
the previously-good content — and on success the destination holds exactly
the concatenation of the serialised chunks streamed into it. -/
theorem spec_C9_corrected (st : FavStore) (old : String) :
    applySaveEvents ((save_favorites_trace st).take 1) old = ""
      ∧ (save_favorites_trace st).head? = some SaveEvent.openDest
      ∧ applySaveEvents (save_favorites_trace st) old
          = (jsonChunks (favToJson st)).foldl (fun a c => a ++ c) "" := by
  refine ⟨rfl, rfl, ?_⟩
  show applySaveEvents
    ((jsonChunks (favToJson st)).flatMap (fun c => [SaveEvent.serialize c, SaveEvent.write c])) ""
    = (jsonChunks (favToJson st)).foldl (fun a c => a ++ c) ""
  generalize jsonChunks (favToJson st) = chunks
  suffices hgen : ∀ (cs : List String) (file : String),
      applySaveEvents (cs.flatMap (fun c => [SaveEvent.serialize c, SaveEvent.write c])) file
        = cs.foldl (fun a c => a ++ c) file from hgen chunks ""
  intro cs
  induction cs with
  | nil => intro file; rfl
  | cons c rest ih =>
    intro file
    simp only [List.flatMap_cons, List.foldl_cons, List.cons_append, List.nil_append]
    show applySaveEvents (rest.flatMap (fun c => [SaveEvent.serialize c, SaveEvent.write c]))
      (file ++ c) = rest.foldl (fun a c => a ++ c) (file ++ c)
    exact ih (file ++ c)

theorem entriesWF_cons {e : JVal} {rest : List JVal} (h : entriesWF (e :: rest) = true) :
    entryHasId e = true ∧ entriesWF rest = true := by
  simpa [entriesWF, Bool.and_eq_true] using h

theorem entryHasId_obj {e : JVal} (h : entryHasId e = true) :
    ∃ kvs v, e = JVal.obj kvs ∧ alistFind "id" kvs = some v := by
  cases e with
  | obj kvs =>
    obtain ⟨v, hv⟩ := Option.isSome_iff_exists.mp (by simpa [entryHasId] using h)
    exact ⟨kvs, v, rfl, hv⟩
  | null => simp [entryHasId] at h
  | bool b => simp [entryHasId] at h
  | int n => simp [entryHasId] at h
  | str s => simp [entryHasId] at h
  | arr xs => simp [entryHasId] at h

theorem entriesWF_mapIds {l : List JVal} (h : entriesWF l = true) :
    mapIdsOf l = .ok (idsOfWF l) := by
  induction l with
  | nil => rfl
  | cons e rest ih =>
    obtain ⟨h1, h2⟩ := entriesWF_cons h
    obtain ⟨kvs, v, he, hv⟩ := entryHasId_obj h1
    subst he
    simp [mapIdsOf, pySubscript, hv, ih h2, idsOfWF]

theorem entriesWF_removeList {l : List JVal} (h : entriesWF l = true) (x : JVal) :
    removeList l x = .ok (l.filter (fun e => !(pyEq (favItemId e) x))) := by
  induction l with
  | nil => rfl
  | cons e rest ih =>
    obtain ⟨h1, h2⟩ := entriesWF_cons h
    obtain ⟨kvs, v, he, hv⟩ := entryHasId_obj h1
    subst he
    simp only [removeList, pySubscript, hv, ih h2, List.filter_cons]
    have hid : favItemId (JVal.obj kvs) = v := by simp [favItemId, jGet, hv]
    rw [hid]
    cases hpe : pyEq v x <;> simp [hpe]

theorem idsOfWF_mem {l : List JVal} {e : JVal} (h : entriesWF l = true) (he : e ∈ l) :
    favItemId e ∈ idsOfWF l := by
  have h1 : entryHasId e = true := by
    have := List.all_eq_true.mp h e he
    simpa using this
  obtain ⟨kvs, v, heq, hv⟩ := entryHasId_obj h1
  subst heq
  have hid : favItemId (JVal.obj kvs) = v := by simp [favItemId, jGet, hv]
  rw [hid]
  exact List.mem_filterMap.mpr ⟨JVal.obj kvs, he, by simp [hv]⟩

theorem pyMem_exists {x : JVal} {l : List JVal} (h : pyMem x l = true) :
    ∃ v ∈ l, pyEq x v = true := by
  simpa [pyMem, List.any_eq_true] using h

theorem pyMem_of_exists {x v : JVal} {l : List JVal} (hv : v ∈ l) (he : pyEq x v = true) :
    pyMem x l = true := by
  simp only [pyMem, List.any_eq_true]
  exact ⟨v, hv, he⟩

theorem pyMem_nodup_count {l : List JVal} {x : JVal} (hm : pyMem x l = true)
    (hd : pyNodup l = true) : l.countP (fun v => pyEq x v) = 1 := by
  induction l with
  | nil => simp [pyMem] at hm
  | cons a t ih =>
    obtain ⟨hna, hnd⟩ := by simpa [pyNodup, Bool.and_eq_true] using hd
    have hsplit : pyEq x a = true ∨ pyMem x t = true := by
      have h3 : (a :: t).any (fun v => pyEq x v) = true := hm
      rw [List.any_cons, Bool.or_eq_true] at h3
      exact h3
    rcases hsplit with hax | hmt
    · rw [List.countP_cons]
      have ht0 : t.countP (fun v => pyEq x v) = 0 := by
        rw [List.countP_eq_zero]
        intro v hv hpv
        have hav : pyEq a v = true := pyEq_trans (pyEq_symm hax) hpv
        exact absurd (pyMem_of_exists hv hav) (by simpa using hna)
      rw [ht0, hax]
      rfl
    · have hax : pyEq x a = false := by
        cases hc : pyEq x a
        · rfl
        · obtain ⟨v, hv, hxv⟩ := pyMem_exists hmt
          have hav : pyEq a v = true := pyEq_trans (pyEq_symm hc) hxv
          exact absurd (pyMem_of_exists hv hav) (by simpa using hna)
      rw [List.countP_cons, ih hmt hnd, hax]
      rfl

theorem filter_id_of_not_mem {l : List JVal} {x : JVal} (h : entriesWF l = true)
    (hnm : pyMem x (idsOfWF l) = false) :
    l.filter (fun e => !(pyEq (favItemId e) x)) = l := by
  rw [List.filter_eq_self]
  intro e he
  have hmem : favItemId e ∈ idsOfWF l := idsOfWF_mem h he
  have hx : pyEq x (favItemId e) = false := by
    cases hc : pyEq x (favItemId e)
    · rfl
    · exact absurd (pyMem_of_exists hmem hc) (by simp [hnm])
  have : pyEq (favItemId e) x = false := by
    cases hc : pyEq (favItemId e) x
    · rfl
    · exact absurd (pyEq_symm hc) (by simp [hx])
  simp [this]

theorem objsHaveId_mapIds_typeError {l : List JVal} (h : objEntriesHaveId l = true)
    {n : Int} (hm : JVal.int n ∈ l) :
    mapIdsOf l = .error "TypeError: object is not subscriptable" := by
  induction l with
  | nil => cases hm
  | cons e rest ih =>
    obtain ⟨h1, h2⟩ : _ ∧ objEntriesHaveId rest = true := by
      simpa [objEntriesHaveId, Bool.and_eq_true] using h
    cases e with
    | obj kvs =>
      have hrest : JVal.int n ∈ rest := by
        rcases List.mem_cons.mp hm with heq | hr
        · exact absurd heq (by simp)
        · exact hr
      obtain ⟨v, hv⟩ := Option.isSome_iff_exists.mp (by simpa using h1)
      simp [mapIdsOf, pySubscript, hv, ih h2 hrest]
    | null => rfl
    | bool b => rfl
    | int m => rfl
    | str s => rfl
    | arr xs => rfl

theorem objsHaveId_removeList_typeError {l : List JVal} (h : objEntriesHaveId l = true)
    {n : Int} (hm : JVal.int n ∈ l) (x : JVal) :
    removeList l x = .error "TypeError: object is not subscriptable" := by
  induction l with
  | nil => cases hm
  | cons e rest ih =>
    obtain ⟨h1, h2⟩ : _ ∧ objEntriesHaveId rest = true := by
      simpa [objEntriesHaveId, Bool.and_eq_true] using h
    cases e with
    | obj kvs =>
      have hrest : JVal.int n ∈ rest := by
        rcases List.mem_cons.mp hm with heq | hr
        · exact absurd heq (by simp)
        · exact hr
      obtain ⟨v, hv⟩ := Option.isSome_iff_exists.mp (by simpa using h1)
      simp [removeList, pySubscript, hv, ih h2 hrest]
    | null => rfl
    | bool b => rfl
    | int m => rfl
    | str s => rfl
    | arr xs => rfl

/-- A favorites store whose maps list already holds two entries with id 1
(duplicates can reach the store through the externally edited file, which
load_favorites passes through unchecked). -/
def stDup : FavStore :=
  ⟨[JVal.obj [("id", JVal.int 1), ("name", JVal.str "a"), ("author", JVal.str "b")],
    JVal.obj [("id", JVal.int 1), ("name", JVal.str "c"), ("author", JVal.str "d")]], []⟩

/-- C2 counterexample: on a store already holding two entries with id 1,
adding id 1 reports already-present and leaves the store as it was — with
two entries for that id, not exactly one as the claim states. -/
theorem spec_C2_counterexample :
    add_to_favorites stDup (JVal.int 1) (JVal.str "x") (JVal.str "y")
        = Except.ok ⟨stDup, true, none⟩
      ∧ favIdCount stDup.maps (JVal.int 1) = 2 := by
  exact ⟨rfl, rfl⟩

/-- C2 as amended: on a maps list of well-formed entries, adding an id that
already occurs is a no-op that reports already-present without persisting —
so a list satisfying the no-duplicate invariant keeps exactly one entry for
that id — and adding an absent id appends the entry at the end and persists
the whole store. -/
theorem spec_C2_corrected (st1 st2 : FavStore) (tid1 tid2 nm au : JVal)
    (h1 : entriesWF st1.maps = true)
    (hocc : pyMem tid1 (idsOfWF st1.maps) = true)
    (hnd : pyNodup (idsOfWF st1.maps) = true)
    (h2 : entriesWF st2.maps = true)
    (habs : pyMem tid2 (idsOfWF st2.maps) = false) :
    add_to_favorites st1 tid1 nm au = Except.ok ⟨st1, true, none⟩
      ∧ favIdCount st1.maps tid1 = 1
      ∧ add_to_favorites st2 tid2 nm au
          = Except.ok ⟨⟨st2.maps ++ [favEntry tid2 nm au], st2.mappacks⟩, false,
              some ⟨st2.maps ++ [favEntry tid2 nm au], st2.mappacks⟩⟩ := by
  refine ⟨?_, pyMem_nodup_count hocc hnd, ?_⟩
  · unfold add_to_favorites
    rw [entriesWF_mapIds h1]
    simp [hocc]
  · unfold add_to_favorites
    rw [entriesWF_mapIds h2]
    simp [habs]

/-- A well-formed one-entry favorites store. -/
def stOne : FavStore := ⟨[favEntry (JVal.int 1) (JVal.str "a") (JVal.str "b")], []⟩

/-- C2 witness: the amended statement evaluated on a one-entry store (re-add
id 1; add fresh id 2 to the empty store). -/
theorem spec_C2_witness :
    add_to_favorites stOne (JVal.int 1) (JVal.str "x") (JVal.str "y")
        = Except.ok ⟨stOne, true, none⟩
      ∧ favIdCount stOne.maps (JVal.int 1) = 1
      ∧ add_to_favorites ⟨[], []⟩ (JVal.int 2) (JVal.str "x") (JVal.str "y")
          = Except.ok ⟨⟨[favEntry (JVal.int 2) (JVal.str "x") (JVal.str "y")], []⟩, false,
              some ⟨[favEntry (JVal.int 2) (JVal.str "x") (JVal.str "y")], []⟩⟩ :=
  spec_C2_corrected stOne ⟨[], []⟩ (JVal.int 1) (JVal.int 2) (JVal.str "x") (JVal.str "y")
    (by decide) (by decide) (by decide) (by decide) (by decide)

/-- The store remove_favorite leaves behind on success: the designated list
without the Python-equal ids, the other list untouched. -/
def removedStore (st : FavStore) (x : JVal) (k : String) : FavStore :=
  if k = "map" then ⟨st.maps.filter (fun e => !(pyEq (favItemId e) x)), st.mappacks⟩
  else ⟨st.maps, st.mappacks.filter (fun e => !(pyEq (favItemId e) x))⟩

/-- A favorites store holding one legacy bare-identifier entry. -/
def stBare : FavStore := ⟨[JVal.int 5], []⟩

/-- C8 counterexample: on a store with a legacy bare entry, removing an
identity that is present nowhere raises a TypeError instead of leaving the
list unchanged without error. -/
theorem spec_C8_counterexample :
    (stBare.maps.map favItemId).all (fun v => !(pyEq (JVal.int 7) v)) = true
      ∧ remove_favorite stBare (JVal.int 7) "map"
          = Except.error "TypeError: object is not subscriptable" := by
  exact ⟨rfl, rfl⟩

/-- C8 as amended: when every entry of the designated list is a dict with an
id, remove rebuilds that list without every entry whose id equals the given
identity, leaves the other list untouched, persists the store, and when the
identity occurs nowhere in the designated list it returns the store
unchanged without error. -/
theorem spec_C8_corrected (st : FavStore) (x : JVal) (k : String)
    (hWF : entriesWF (if k = "map" then st.maps else st.mappacks) = true) :
    remove_favorite st x k = Except.ok (removedStore st x k)
      ∧ (pyMem x (idsOfWF (if k = "map" then st.maps else st.mappacks)) = false →
          removedStore st x k = st)
      ∧ save_favorites (removedStore st x k)
          = FileState.content (favToJson (removedStore st x k)) := by
  by_cases hk : k = "map"
  · subst hk
    rw [if_pos rfl] at hWF
    refine ⟨?_, ?_, rfl⟩
    · unfold remove_favorite removedStore
      rw [if_pos rfl, if_pos rfl, entriesWF_removeList hWF]
    · intro habs
      rw [if_pos rfl] at habs
      unfold removedStore
      rw [if_pos rfl, filter_id_of_not_mem hWF habs]
  · rw [if_neg hk] at hWF
    refine ⟨?_, ?_, rfl⟩
    · unfold remove_favorite removedStore
      rw [if_neg hk, if_neg hk, entriesWF_removeList hWF]
    · intro habs
      rw [if_neg hk] at habs
      unfold removedStore
      rw [if_neg hk, filter_id_of_not_mem hWF habs]

/-- C8 witness: removing the absent id 2 from a well-formed one-entry store
succeeds and leaves the store unchanged. -/
theorem spec_C8_witness :
    remove_favorite stOne (JVal.int 2) "map" = Except.ok (removedStore stOne (JVal.int 2) "map")
      ∧ removedStore stOne (JVal.int 2) "map" = stOne :=
  ⟨(spec_C8_corrected stOne (JVal.int 2) "map" (by decide)).1,
    (spec_C8_corrected stOne (JVal.int 2) "map" (by decide)).2.1 (by decide)⟩

/-- A store whose maps list holds an id-less dict entry before a legacy bare
entry. -/
def stMixed : FavStore := ⟨[JVal.obj [], JVal.int 5], []⟩

/-- C10 counterexample: a favorites state containing a legacy bare entry on
which add_to_favorites raises a KeyError (from the id-less dict entry that
precedes it), not a type error. -/
theorem spec_C10_counterexample :
    (JVal.int 5) ∈ stMixed.maps
      ∧ add_to_favorites stMixed (JVal.int 9) (JVal.str "n") (JVal.str "a")
          = Except.error "KeyError: id" := by
  refine ⟨?_, rfl⟩
  simp [stMixed]

/-- C10 as amended: the duplicate check of the two add operations and the
filter of remove subscript every stored entry as entry["id"], so they
complete exactly on lists of dict entries carrying an id; on a store whose
dict entries all carry an id but whose target list contains a legacy bare
(non-dict) entry, all three operations raise a TypeError instead of
completing. -/
theorem spec_C10_corrected (stA stB : FavStore) (tid nm au pid mc x : JVal) (n m : Int)
    (hA1 : entriesWF stA.maps = true) (hA2 : entriesWF stA.mappacks = true)
    (hB1 : objEntriesHaveId stB.maps = true) (hB2 : objEntriesHaveId stB.mappacks = true)
    (hm1 : JVal.int n ∈ stB.maps) (hm2 : JVal.int m ∈ stB.mappacks) :
    isOkE (add_to_favorites stA tid nm au) = true
      ∧ isOkE (add_mappack_to_favorites stA pid nm au mc) = true
      ∧ isOkE (remove_favorite stA x "map") = true
      ∧ isOkE (remove_favorite stA x "mappack") = true
      ∧ add_to_favorites stB tid nm au = Except.error "TypeError: object is not subscriptable"
      ∧ add_mappack_to_favorites stB pid nm au mc
          = Except.error "TypeError: object is not subscriptable"
      ∧ remove_favorite stB x "map" = Except.error "TypeError: object is not subscriptable"
      ∧ remove_favorite stB x "mappack"
          = Except.error "TypeError: object is not subscriptable" := by
  refine ⟨?_, ?_, ?_, ?_, ?_, ?_, ?_, ?_⟩
  · unfold add_to_favorites
    rw [entriesWF_mapIds hA1]
    dsimp only
    split <;> rfl
  · unfold add_mappack_to_favorites
    rw [entriesWF_mapIds hA2]
    dsimp only
    split <;> rfl
  · unfold remove_favorite
    rw [if_pos rfl, entriesWF_removeList hA1]
    rfl
  · unfold remove_favorite
    rw [if_neg (by decide), entriesWF_removeList hA2]
    rfl
  · unfold add_to_favorites
    rw [objsHaveId_mapIds_typeError hB1 hm1]
  · unfold add_mappack_to_favorites
    rw [objsHaveId_mapIds_typeError hB2 hm2]
  · unfold remove_favorite
    rw [if_pos rfl, objsHaveId_removeList_typeError hB1 hm1]
  · unfold remove_favorite
    rw [if_neg (by decide), objsHaveId_removeList_typeError hB2 hm2]

/-- A store with a legacy bare entry in both lists. -/
def stBareBoth : FavStore := ⟨[JVal.int 5], [JVal.int 6]⟩

/-- C10 witness: the amended statement evaluated on the empty store (all
operations complete) and on a store with a bare entry in each list (all
operations raise a TypeError). -/
theorem spec_C10_witness :
    isOkE (add_to_favorites ⟨[], []⟩ (JVal.int 9) (JVal.str "n") (JVal.str "a")) = true
      ∧ isOkE (add_mappack_to_favorites ⟨[], []⟩ (JVal.int 3) (JVal.str "n") (JVal.str "a")
          (JVal.int 0)) = true
      ∧ isOkE (remove_favorite ⟨[], []⟩ (JVal.int 7) "map") = true
      ∧ isOkE (remove_favorite ⟨[], []⟩ (JVal.int 7) "mappack") = true
      ∧ add_to_favorites stBareBoth (JVal.int 9) (JVal.str "n") (JVal.str "a")
          = Except.error "TypeError: object is not subscriptable"
      ∧ add_mappack_to_favorites stBareBoth (JVal.int 3) (JVal.str "n") (JVal.str "a")
          (JVal.int 0) = Except.error "TypeError: object is not subscriptable"
      ∧ remove_favorite stBareBoth (JVal.int 7) "map"
          = Except.error "TypeError: object is not subscriptable"
      ∧ remove_favorite stBareBoth (JVal.int 7) "mappack"
          = Except.error "TypeError: object is not subscriptable" :=
  spec_C10_corrected ⟨[], []⟩ stBareBoth (JVal.int 9) (JVal.str "n") (JVal.str "a")
    (JVal.int 3) (JVal.int 0) (JVal.int 7) 5 6
    (by decide) (by decide) (by decide) (by decide) (by decide) (by decide)
